import Mathlib

/-!
Verification of the temporal-join core of `src/attach_weather.py`
(fr24-query-master): the 15-minute time quantizer, the flight-time
parser, the chunked weather index builder and the enrichment pipeline
that attaches weather fields to flight records.

Machine arithmetic notes: the Python code computes
`round(seconds / (15 * 60))` on a float.  For `seconds < 86400` every
tie value `seconds / 900 = n + 1/2` is exactly representable as an IEEE
double and non-tie values are more than `1/1800` away from a half-integer,
far above double rounding error, so Python's float `round`
(round-half-to-even) coincides with exact rational rounding
half-to-even, which is what `pyRound` implements on naturals.
-/

/-- Calendar date, as carried by a pandas Timestamp. -/
structure Date where
  year : Nat
  month : Nat
  day : Nat
deriving DecidableEq

/-- Timestamp at second granularity (microseconds are irrelevant to the
code under verification: `round_to_nearest_quarter` reads only
hour/minute/second and zeroes the rest). -/
structure Instant where
  date : Date
  hour : Nat
  minute : Nat
  second : Nat
deriving DecidableEq

/-- Leap-year rule of the proleptic Gregorian calendar used by pandas. -/
def isLeap (y : Nat) : Bool :=
  (y % 4 = 0 && y % 100 != 0) || y % 400 = 0

def daysInMonth (y m : Nat) : Nat :=
  if m = 2 then (if isLeap y then 29 else 28)
  else if m = 4 || m = 6 || m = 9 || m = 11 then 30
  else 31

/-- Successor calendar date (what adding one day to a midnight
Timestamp does). -/
def nextDate (d : Date) : Date :=
  if d.day < daysInMonth d.year d.month then ⟨d.year, d.month, d.day + 1⟩
  else if d.month < 12 then ⟨d.year, d.month + 1, 1⟩
  else ⟨d.year + 1, 1, 1⟩

def addDays (d : Date) : Nat → Date
  | 0 => d
  | n + 1 => addDays (nextDate d) n

/-- Midnight of date `d` plus `n` seconds: the `base + timedelta(seconds=n)`
arithmetic of pandas Timestamps, at second granularity. -/
def addToMidnight (d : Date) (n : Nat) : Instant :=
  ⟨addDays d (n / 86400), n % 86400 / 3600, n % 86400 % 3600 / 60, n % 86400 % 60⟩

/-- Python's `round(num / den)` for natural `num` and positive `den`:
round to the nearest integer, ties to even. -/
def pyRound (num den : Nat) : Nat :=
  if 2 * (num % den) < den then num / den
  else if den < 2 * (num % den) then num / den + 1
  else if (num / den) % 2 = 0 then num / den else num / den + 1

/-- Seconds since midnight, `dt.hour * 3600 + dt.minute * 60 + dt.second`. -/
def secondsSinceMidnight (i : Instant) : Nat :=
  i.hour * 3600 + i.minute * 60 + i.second

/-- Embeds `round_to_nearest_quarter` from `src/attach_weather.py` on a
non-NaT input: `nearest = round(seconds / 900) * 900` added to midnight
of the same calendar date. -/
def round_to_nearest_quarter (i : Instant) : Instant :=
  addToMidnight i.date (pyRound (secondsSinceMidnight i) 900 * 900)

/-- Lifting of `round_to_nearest_quarter` to possibly-NaT inputs
(the `pd.isna` guard in the source). -/
def roundQuarterOpt (i : Option Instant) : Option Instant :=
  i.map round_to_nearest_quarter

/-! String primitives modelling the Python string operations used by the
source: `str.strip`, `str.upper` (on ASCII station codes and time
strings) and digit handling. -/

/-- Whitespace characters stripped by Python `str.strip()` (ASCII set;
the data handled by the program is ASCII). -/
def isPySpace (c : Char) : Bool :=
  c = ' ' || c = '\t' || c = '\n' || c = '\r' || c = '\x0b' || c = '\x0c'

def stripChars (l : List Char) : List Char :=
  ((l.dropWhile isPySpace).reverse.dropWhile isPySpace).reverse

def stripStr (s : String) : String :=
  ⟨stripChars s.data⟩

/-- ASCII upper-casing of one character, as `str.upper` acts on the
station codes handled by the program. -/
def upperChar (c : Char) : Char :=
  if 'a' ≤ c && c ≤ 'z' then Char.ofNat (c.toNat - 32) else c

def asciiUpper (s : String) : String :=
  ⟨s.data.map upperChar⟩

/-- Numeric value of a list of decimal digit characters, as Python
`int` reads a digit string. -/
def digitsToNat (l : List Char) : Nat :=
  l.foldl (fun a c => a * 10 + (c.toNat - 48)) 0

/-- Python `int(s)` on a string, restricted to unsigned decimal
literals with surrounding whitespace: any other shape raises in Python
and is `none` here (the source wraps every such call in try/except). -/
def intOfString (s : String) : Option Nat :=
  let cs := stripChars s.data
  if cs ≠ [] && cs.all Char.isDigit then some (digitsToNat cs) else none

/-! The flight-time parser `parse_time_str`.  The primary strategy is
Python `re.search` with pattern one-or-two digits, optional colon,
exactly two digits; `re.search` scans start positions left to right and
the greedy quantifier prefers the two-digit hour.  The fallback takes
the first maximal digit run, zero-fills it to four characters on the
left, and splits it as the first two characters versus the rest. -/

/-- One attempt of the primary regex at the current position with an
`n`-digit hour (`n` is 2 or 1).  After the hour digits an optional
colon is consumed greedily; backtracking on the colon cannot help,
because on failure the unconsumed character is the colon itself, which
is not a digit. -/
def tryLen (n : Nat) (cs : List Char) : Option (Nat × Nat) :=
  let hd := cs.take n
  if hd.length = n && hd.all Char.isDigit then
    let rest := cs.drop n
    let rest := match rest with
      | ':' :: t => t
      | r => r
    match rest with
    | a :: b :: _ =>
        if a.isDigit && b.isDigit then some (digitsToNat hd, digitsToNat [a, b])
        else none
    | _ => none
  else none

/-- Primary regex attempt anchored at the current position: greedy hour
width 2 first, then 1. -/
def matchAt (cs : List Char) : Option (Nat × Nat) :=
  match tryLen 2 cs with
  | some r => some r
  | none => tryLen 1 cs

/-- Leftmost search of the primary pattern, as `re.search` does. -/
def extractHM : List Char → Option (Nat × Nat)
  | [] => none
  | c :: rest =>
      match matchAt (c :: rest) with
      | some r => some r
      | none => extractHM rest

/-- First maximal run of digits in the string, as the fallback
`re.search` with a one-group all-digits pattern finds it. -/
def firstDigitRun (cs : List Char) : List Char :=
  (cs.dropWhile (fun c => !c.isDigit)).takeWhile Char.isDigit

/-- Python `d.zfill 4`: left-pad with zero characters to length four. -/
def zfill4 (l : List Char) : List Char :=
  List.replicate (4 - l.length) '0' ++ l

/-- Fallback extraction: first digit run, zero-filled to four, split as
first two characters (hour) versus the remainder (minute). -/
def fallbackPair (cs : List Char) : Option (Nat × Nat) :=
  let d := firstDigitRun cs
  if d = [] then none
  else
    let d4 := zfill4 d
    some (digitsToNat (d4.take 2), digitsToNat (d4.drop 2))

/-- Pair extracted by `parse_time_str` before validation: the primary
regex result when it matches, otherwise the digit-run fallback.  Both
source branches apply the identical 24:00 special case and range
validation afterwards. -/
def extractedPair (cs : List Char) : Option (Nat × Nat) :=
  match extractHM cs with
  | some p => some p
  | none => fallbackPair cs

/-- Embeds `parse_time_str` from `src/attach_weather.py`.  `none` input
is the `pd.isna` case. -/
def parse_time_str (v : Option String) : Option (Nat × Nat) :=
  match v with
  | none => none
  | some s0 =>
      let cs := stripChars s0.data
      if cs = [] then none
      else
        match extractedPair cs with
        | none => none
        | some (h, mnt) =>
            if h = 24 && mnt = 0 then some (0, 0)
            else if h ≤ 23 && mnt ≤ 59 then some (h, mnt)
            else none

example : parse_time_str (some "0730") = some (7, 30) := by decide
example : parse_time_str (some "7:30") = some (7, 30) := by decide
example : parse_time_str (some "730") = some (7, 30) := by decide
example : parse_time_str (some "0730.0") = some (7, 30) := by decide
example : parse_time_str (some "2400") = some (0, 0) := by decide
example : parse_time_str (some "2561") = none := by decide
example : parse_time_str (some "") = none := by decide
example : parse_time_str (some "5") = some (0, 5) := by decide

/-! Timestamp parsing.  The source delegates string-to-datetime parsing
to the pandas library (`pd.to_datetime`, `errors="coerce"`); the model
below covers the ISO formats the weather and flight data use,
YYYY-MM-DD with an optional HH:MM:SS part, and treats every other
shape as unparseable (NaT). -/

def digit2 (a b : Char) : Option Nat :=
  if a.isDigit && b.isDigit then some (digitsToNat [a, b]) else none

/-- Models the pandas datetime parser on ISO-formatted input:
`YYYY-MM-DD` or `YYYY-MM-DD HH:MM:SS`, validated against the calendar;
anything else is `none` (NaT under `errors="coerce"`). -/
def parseDateTime (s : String) : Option Instant :=
  match s.data with
  | [y1, y2, y3, y4, '-', m1, m2, '-', d1, d2] =>
      if [y1, y2, y3, y4, m1, m2, d1, d2].all Char.isDigit then
        let y := digitsToNat [y1, y2, y3, y4]
        let mo := digitsToNat [m1, m2]
        let d := digitsToNat [d1, d2]
        if 1 ≤ mo && mo ≤ 12 && 1 ≤ d && d ≤ daysInMonth y mo then
          some ⟨⟨y, mo, d⟩, 0, 0, 0⟩
        else none
      else none
  | [y1, y2, y3, y4, '-', m1, m2, '-', d1, d2, ' ', h1, h2, ':', n1, n2, ':', s1, s2] =>
      if [y1, y2, y3, y4, m1, m2, d1, d2, h1, h2, n1, n2, s1, s2].all Char.isDigit then
        let y := digitsToNat [y1, y2, y3, y4]
        let mo := digitsToNat [m1, m2]
        let d := digitsToNat [d1, d2]
        let h := digitsToNat [h1, h2]
        let mi := digitsToNat [n1, n2]
        let se := digitsToNat [s1, s2]
        if 1 ≤ mo && mo ≤ 12 && 1 ≤ d && d ≤ daysInMonth y mo
            && h ≤ 23 && mi ≤ 59 && se ≤ 59 then
          some ⟨⟨y, mo, d⟩, h, mi, se⟩
        else none
      else none
  | _ => none

/-- Models `pd.to_datetime(value, errors="coerce")` on an optional raw
string cell: a missing cell is NaT, otherwise the stripped string is
parsed. -/
def pdToDatetime (v : Option String) : Option Instant :=
  v.bind (fun s => parseDateTime (stripStr s))

example : pdToDatetime (some "2024-01-01 07:31:00") = some ⟨⟨2024, 1, 1⟩, 7, 31, 0⟩ := by decide
example : pdToDatetime (some "2024-01-01") = some ⟨⟨2024, 1, 1⟩, 0, 0, 0⟩ := by decide
example : pdToDatetime (some "garbage") = none := by decide

/-! The weather index builder `build_weather_map`.  The weather feed is
a sequence of chunks; each chunk carries the frame's column list (used
for the fatal station-column check) and its records.  A record holds
the raw station cell, the raw `valid` timestamp cell, and the remaining
observation fields (already excluding station and valid, which the
source strips from the stored row dictionaries); a field value of
`none` is a NaN cell. -/

structure WRecord where
  station : Option String
  valid : Option String
  fields : List (String × Option Int)
deriving DecidableEq

structure WChunk where
  cols : List String
  rows : List WRecord
deriving DecidableEq

abbrev WKey := String × Instant
abbrev WFields := List (String × Option Int)
abbrev WMap := List (WKey × WFields)

/-- Station normalization `astype(str).str.strip().str.upper()`: a NaN
station cell is first stringified to the literal text nan, so it
normalizes to the text NAN rather than staying missing. -/
def normStation (v : Option String) : String :=
  asciiUpper (stripStr (match v with | none => "nan" | some s => s))

example : normStation none = "NAN" := by decide
example : normStation (some "jfk ") = "JFK" := by decide

/-- First value of an observation field by name (association-list
lookup over the stored row dictionary). -/
def lookupField (n : String) : WFields → Option (Option Int)
  | [] => none
  | (c, v) :: t => if c = n then some v else lookupField n t

/-- Keying pass of one chunk: parse the `valid` cell with coercion,
drop the rows where it is NaT, normalize the station and quantize the
timestamp (lines 42 to 45 of the source). -/
def chunkKeyed (rows : List WRecord) : List (WKey × WFields) :=
  rows.filterMap (fun r =>
    (pdToDatetime r.valid).map (fun t =>
      ((normStation r.station, round_to_nearest_quarter t), r.fields)))

/-- In-chunk grouping `groupby(["station", "valid_15"]).first()`: one
output row per key; each field takes the first non-NaN value among the
group's rows in row order (NaN when there is none), which is the pandas
`first` aggregation. -/
def groupFirstAux : Nat → List (WKey × WFields) → List (WKey × WFields)
  | _, [] => []
  | 0, _ :: _ => []
  | fuel + 1, (k, f) :: rest =>
      let grp := (k, f) :: rest.filter (fun p => decide (p.1 = k))
      let agg := (f.map Prod.fst).map (fun n =>
        (n, grp.findSome? (fun p => (lookupField n p.2).bind id)))
      (k, agg) :: groupFirstAux fuel (rest.filter (fun p => decide (¬ p.1 = k)))

def groupFirst (l : List (WKey × WFields)) : List (WKey × WFields) :=
  groupFirstAux l.length l

/-- Python dict assignment `mapping[key] = rowdict`: replace in place
when the key is present, append otherwise. -/
def insertOverwrite : WMap → WKey → WFields → WMap
  | [], k, f => [(k, f)]
  | (k0, f0) :: t, k, f =>
      if k0 = k then (k, f) :: t else (k0, f0) :: insertOverwrite t k f

/-- Processing of one conforming chunk: key, group, then write every
grouped row into the accumulated mapping, capturing the field-name
list from the first stored row if not captured yet. -/
def processChunk (m : WMap) (cols : Option (List String)) (c : WChunk) :
    WMap × Option (List String) :=
  let g := groupFirst (chunkKeyed c.rows)
  (g.foldl (fun acc kr => insertOverwrite acc kr.1 kr.2) m,
   match cols with
   | some cs => some cs
   | none => g.head?.map (fun kr => kr.2.map Prod.fst))

def stationColMissingMsg : String := "weather file missing station column"

/-- Chunk loop of `build_weather_map`: the fatal KeyError when a chunk
lacks the station column, otherwise accumulation. -/
def buildGo : WMap × Option (List String) → List WChunk →
    Except String (WMap × Option (List String))
  | acc, [] => Except.ok acc
  | acc, c :: cs =>
      if "station" ∈ c.cols then buildGo (processChunk acc.1 acc.2 c) cs
      else Except.error stationColMissingMsg

/-- Embeds `build_weather_map` from `src/attach_weather.py` over the
chunk sequence (the `cols or []` on return is the final `getD`). -/
def build_weather_map (chunks : List WChunk) : Except String (WMap × List String) :=
  (buildGo ([], none) chunks).map (fun acc => (acc.1, acc.2.getD []))

/-- Association lookup in the built mapping (`key in weather_map` /
`weather_map[key]`). -/
def wmapFind : WMap → WKey → Option WFields
  | [], _ => none
  | (k0, f0) :: t, k => if k0 = k then some f0 else wmapFind t k

/-- Convenience: the stored fields for a key after a full build, `none`
when the build failed or the key is absent. -/
def buildFind (chunks : List WChunk) (k : WKey) : Option WFields :=
  match build_weather_map chunks with
  | Except.ok (m, _) => wmapFind m k
  | Except.error _ => none

def isOkE {ε α : Type} : Except ε α → Bool
  | Except.ok _ => true
  | Except.error _ => false

instance {ε α : Type} [DecidableEq ε] [DecidableEq α] : DecidableEq (Except ε α) := fun x y =>
  match x, y with
  | Except.ok a, Except.ok b =>
      if h : a = b then isTrue (by rw [h]) else isFalse (by simp [h])
  | Except.error a, Except.error b =>
      if h : a = b then isTrue (by rw [h]) else isFalse (by simp [h])
  | Except.ok _, Except.error _ => isFalse (fun hc => Except.noConfusion hc)
  | Except.error _, Except.ok _ => isFalse (fun hc => Except.noConfusion hc)

instance : DecidableEq (WMap × List String) := instDecidableEqProd

/-! The flight table and the enrichment pipeline `attach_weather`.
The flight frame is read with `dtype=str`, so its cells start as raw
strings or NaN; the pipeline then stores timestamps (`FL_DATE_TS`,
`DEP_ROUND`, `ARR_ROUND`), integers (derived `YEAR`/`MONTH`, attached
weather values) and NA cells into the same frame, so a cell is a tagged
union of those shapes. -/

inductive Cell
  | na : Cell
  | str : String → Cell
  | ts : Instant → Cell
  | int : Int → Cell
deriving DecidableEq

abbrev FRow := List (String × Cell)

/-- Reading a cell from a row; a missing key behaves like a missing
value (`row.get` returns None, and `pd.isna(None)` holds). -/
def rowGet : FRow → String → Cell
  | [], _ => Cell.na
  | (c0, v) :: t, c => if c0 = c then v else rowGet t c

/-- Writing one cell of a row, keeping its position when the column
already exists (pandas cell assignment). -/
def rowSet : FRow → String → Cell → FRow
  | [], c, v => [(c, v)]
  | (c0, v0) :: t, c, v =>
      if c0 = c then (c, v) :: t else (c0, v0) :: rowSet t c v

structure FTable where
  cols : List String
  rows : List FRow
deriving DecidableEq

/-- Column list after assigning to column `c`: unchanged when present,
appended at the end when new (pandas column assignment). -/
def appendNew (cs : List String) (c : String) : List String :=
  if c ∈ cs then cs else cs ++ [c]

/-- Whole-column assignment `fdf[c] = fdf.apply(f)`: each row receives
the cell computed from that row's current contents. -/
def mapCol (t : FTable) (c : String) (f : FRow → Cell) : FTable :=
  ⟨appendNew t.cols c, t.rows.map (fun r => rowSet r c (f r))⟩

/-- Cell at row index `i`, column `c`. -/
def cellAt (t : FTable) (i : Nat) (c : String) : Cell :=
  rowGet (t.rows.getD i []) c

/-- Raw string content of a flight cell where the source reads a value
that is a string or NaN (`dtype=str` frame). -/
def cellStrOpt : Cell → Option String
  | Cell.str s => some s
  | _ => none

/-- Python `int(value)` on a flight cell under try/except: a string
parses as a decimal literal, an integer cell (the derived YEAR/MONTH)
is already an int, everything else raises and falls to the handler. -/
def cellInt : Cell → Option Nat
  | Cell.str s => intOfString s
  | Cell.int n => if 0 ≤ n then some n.toNat else none
  | _ => none

/-- The maximal signed 64-bit value bounding a datetime64 payload in
nanoseconds; beyond it `pd.to_datetime(int, unit)` raises and the
source falls through to the next unit. -/
def maxI64 : Nat := 9223372036854775807

/-- Instant at `secs` seconds after the epoch 1970-01-01 00:00:00
(the value of an integer interpreted by `pd.to_datetime` with a unit;
sub-second precision is dropped, matching the second-granularity
model). -/
def epochInstant (secs : Nat) : Instant :=
  ⟨addDays ⟨1970, 1, 1⟩ (secs / 86400), secs % 86400 / 3600,
   secs % 86400 % 3600 / 60, secs % 86400 % 60⟩

/-- Embeds the inner `parse_flight_date` of `attach_weather`: normal
parsing first (coercing, so failures yield NaT rather than raising),
then the digits of the string read as an epoch count tried in
nanosecond, millisecond, second units. -/
def parse_flight_date (v : Cell) : Option Instant :=
  match cellStrOpt v with
  | none => none
  | some s0 =>
      let s := stripStr s0
      match parseDateTime s with
      | some t => some t
      | none =>
          let dig := s.data.filter Char.isDigit
          if dig = [] then none
          else
            let n := digitsToNat dig
            if n ≤ maxI64 then some (epochInstant (n / 1000000000))
            else if n * 1000000 ≤ maxI64 then some (epochInstant (n / 1000))
            else if n * 1000000000 ≤ maxI64 then some (epochInstant n)
            else none

/-- Embeds `compute_rounded_dt` of `attach_weather`: parse the raw
time cell, place it on the parsed flight date when available (the
`base.replace` call keeps the calendar date), otherwise fall back to
day 1 of YEAR/MONTH, then quantize; every failure is NaT. -/
def compute_rounded_dt (r : FRow) (timeCol : String) : Cell :=
  match parse_time_str (cellStrOpt (rowGet r timeCol)) with
  | none => Cell.na
  | some (h, m) =>
      match rowGet r "FL_DATE_TS" with
      | Cell.ts base =>
          Cell.ts (round_to_nearest_quarter { base with hour := h, minute := m, second := 0 })
      | _ =>
          match cellInt (rowGet r "YEAR"), cellInt (rowGet r "MONTH") with
          | some yr, some mo =>
              if 1 ≤ mo && mo ≤ 12 && 1 ≤ yr then
                Cell.ts (round_to_nearest_quarter ⟨⟨yr, mo, 1⟩, h, m, 0⟩)
              else Cell.na
          | _, _ => Cell.na

/-- Flight-side station normalization (lines 133 to 134 of the
source): the same `astype(str).str.strip().str.upper()` chain as the
weather side, so a NaN cell becomes the text NAN. -/
def cellNormStation (v : Cell) : Cell :=
  Cell.str (normStation (cellStrOpt v))

/-- Derived year cell `pd.to_datetime(fdf[FL_DATE]).dt.year` for one
row (NaN stays NA; the strict parse of an unparseable string is a
fatal error checked separately before this map runs). -/
def yearCell (v : Cell) : Cell :=
  match cellStrOpt v with
  | none => Cell.na
  | some s =>
      match parseDateTime (stripStr s) with
      | some t => Cell.int t.date.year
      | none => Cell.na

def monthCell (v : Cell) : Cell :=
  match cellStrOpt v with
  | none => Cell.na
  | some s =>
      match parseDateTime (stripStr s) with
      | some t => Cell.int t.date.month
      | none => Cell.na

/-- Strict `pd.to_datetime` over the FL_DATE column (no coercion):
raises on the first non-NaN cell that does not parse. -/
def flDateAllParse (t : FTable) : Bool :=
  t.rows.all (fun r =>
    match rowGet r "FL_DATE" with
    | Cell.na => true
    | Cell.str s => (parseDateTime (stripStr s)).isSome
    | _ => false)

/-- Stored weather value written into a prefixed output cell:
`w.get(wc)` is None for an absent field and the stored value may itself
be NaN. -/
def fieldCell (v : Option (Option Int)) : Cell :=
  match v with
  | some (some n) => Cell.int n
  | _ => Cell.na

/-- Pre-allocation of the prefixed output columns for one row (lines
174 to 177): every DEP_ and ARR_ field is set to NA. -/
def initWeatherRow (wcols : List String) (r : FRow) : FRow :=
  wcols.foldl (fun r2 wc =>
    rowSet (rowSet r2 ("DEP_" ++ wc) Cell.na) ("ARR_" ++ wc) Cell.na) r

/-- Departure lookup key of a row: present only when the rounded
datetime is not NaT (`pd.notna` guard on line 183). -/
def depKeyOf (r : FRow) : Option WKey :=
  match rowGet r "ORIGIN", rowGet r "DEP_ROUND" with
  | Cell.str o, Cell.ts dt => some (o, dt)
  | _, _ => none

def arrKeyOf (r : FRow) : Option WKey :=
  match rowGet r "DEST", rowGet r "ARR_ROUND" with
  | Cell.str d, Cell.ts dt => some (d, dt)
  | _, _ => none

/-- Copy of every weather field of the observation matching `key` into
the row under the prefix, when there is a hit. -/
def attachSide (wmap : WMap) (wcols : List String) (pre : String)
    (key : Option WKey) (r : FRow) : FRow :=
  match key.bind (wmapFind wmap) with
  | some w => wcols.foldl (fun r2 wc =>
      rowSet r2 (pre ++ wc) (fieldCell (lookupField wc w))) r
  | none => r

/-- Lookup-and-write pass for one row (lines 180 to 193): both keys
are computed from the row before either write happens, and the
departure fields are written first. -/
def attachRow (wmap : WMap) (wcols : List String) (r : FRow) : FRow :=
  let depKey := depKeyOf r
  let arrKey := arrKeyOf r
  attachSide wmap wcols "ARR_" arrKey (attachSide wmap wcols "DEP_" depKey r)

/-- Derived `FL_DATE_TS` column (line 130): each row's raw flight date
parsed into a timestamp cell, NaT on failure. -/
def stage_fl_date_ts (fdf : FTable) : FTable :=
  mapCol fdf "FL_DATE_TS" (fun r =>
    match parse_flight_date (rowGet r "FL_DATE") with
    | some t => Cell.ts t
    | none => Cell.na)

def stage_year_month (fdf : FTable) : FTable :=
  mapCol (mapCol fdf "YEAR" (fun r => yearCell (rowGet r "FL_DATE")))
    "MONTH" (fun r => monthCell (rowGet r "FL_DATE"))

/-- Rounded-time columns (lines 163 to 172): both datetimes are
computed from the rows as they stand BEFORE either column is assigned,
then assigned in order. -/
def stage_rounds (fdf : FTable) : FTable :=
  ⟨appendNew (appendNew fdf.cols "DEP_ROUND") "ARR_ROUND",
   fdf.rows.map (fun r =>
     rowSet (rowSet r "DEP_ROUND" (compute_rounded_dt r "DEP_TIME"))
       "ARR_ROUND" (compute_rounded_dt r "ARR_TIME"))⟩

/-- Column list after pre-allocating the prefixed weather columns in
source order (DEP then ARR per field). -/
def weatherColsAfter (wcols : List String) (cs : List String) : List String :=
  wcols.foldl (fun cs2 wc => appendNew (appendNew cs2 ("DEP_" ++ wc)) ("ARR_" ++ wc)) cs

/-- Pre-allocation of the prefixed columns plus the per-row lookup
loop (lines 174 to 193).  The two passes are fused row-wise; they
commute because the loop reads only ORIGIN, DEST and the rounded
columns, which the pre-allocation never writes. -/
def stage_attach (wmap : WMap) (wcols : List String) (fdf : FTable) : FTable :=
  ⟨weatherColsAfter wcols fdf.cols,
   fdf.rows.map (fun r => attachRow wmap wcols (initWeatherRow wcols r))⟩

/-- Embeds `attach_weather` from `src/attach_weather.py` (file input
and output aside): build the weather index, derive `FL_DATE_TS`,
normalize `ORIGIN`/`DEST` in place, derive `YEAR`/`MONTH` when either
is missing, compute the rounded time columns, pre-allocate the
prefixed columns and run the per-row lookup loop.  A missing required
column is the corresponding pandas KeyError. -/
def attach_weather (wchunks : List WChunk) (fdf : FTable) : Except String FTable := do
  let bw ← build_weather_map wchunks
  let wmap := bw.1
  let wcols := bw.2
  if "FL_DATE" ∉ fdf.cols then throw "KeyError: FL_DATE" else
  let fdf1 := stage_fl_date_ts fdf
  if "ORIGIN" ∉ fdf1.cols then throw "KeyError: ORIGIN" else
  let fdf2 := mapCol fdf1 "ORIGIN" (fun r => cellNormStation (rowGet r "ORIGIN"))
  if "DEST" ∉ fdf2.cols then throw "KeyError: DEST" else
  let fdf3 := mapCol fdf2 "DEST" (fun r => cellNormStation (rowGet r "DEST"))
  let fdf4 ←
    if "YEAR" ∈ fdf3.cols ∧ "MONTH" ∈ fdf3.cols then pure fdf3
    else if flDateAllParse fdf3 then pure (stage_year_month fdf3)
    else throw "unparseable FL_DATE"
  pure (stage_attach wmap wcols (stage_rounds fdf4))

/-- Cell of the resulting table of a run, `none` when the run failed. -/
def runCell (res : Except String FTable) (i : Nat) (c : String) : Option Cell :=
  match res with
  | Except.ok t => some (cellAt t i c)
  | Except.error _ => none

/-! Helper lemmas about the quantizer arithmetic. -/

lemma pyRound_le_succ (num den : Nat) : pyRound num den ≤ num / den + 1 := by
  unfold pyRound
  split_ifs <;> omega

lemma mul900_mod60 (k : Nat) : k * 900 % 60 = 0 := by
  simp [Nat.mul_mod]

lemma addToMidnight_lt (d : Date) (n : Nat) (h : n < 86400) :
    addToMidnight d n = ⟨d, n / 3600, n % 3600 / 60, n % 60⟩ := by
  simp [addToMidnight, Nat.div_eq_of_lt h, Nat.mod_eq_of_lt h, addDays]

lemma addToMidnight_full (d : Date) : addToMidnight d 86400 = ⟨nextDate d, 0, 0, 0⟩ := by
  norm_num [addToMidnight, addDays]

lemma quantize_2353 (i : Instant) :
    round_to_nearest_quarter ⟨i.date, 23, 53, 0⟩ = ⟨nextDate i.date, 0, 0, 0⟩ := by
  have hssm : secondsSinceMidnight ⟨i.date, 23, 53, 0⟩ = 85980 := by
    unfold secondsSinceMidnight
    norm_num
  have hpr : pyRound 85980 900 * 900 = 86400 := by decide
  rw [round_to_nearest_quarter, hssm, hpr, addToMidnight_full]

lemma quantize_2352_30 (d : Date) :
    round_to_nearest_quarter ⟨d, 23, 52, 30⟩ = ⟨nextDate d, 0, 0, 0⟩ := by
  have hssm : secondsSinceMidnight ⟨d, 23, 52, 30⟩ = 85950 := by
    unfold secondsSinceMidnight
    norm_num
  have hpr : pyRound 85950 900 * 900 = 86400 := by decide
  rw [round_to_nearest_quarter, hssm, hpr, addToMidnight_full]

/-- C1: for every instant with date, hour, minute and second, the
quantizer returns midnight of the same calendar date plus
`round(seconds / 900) * 900` seconds, where the rounded total never
exceeds 86400; when it is below 86400 the result stays on the same
calendar date at that offset, and when it equals 86400 the result is
the next calendar date at 00:00:00; in particular 23:53:00 quantizes to
the next calendar date at 00:00:00. -/
theorem claim_C1_quantize (i : Instant)
    (hh : i.hour ≤ 23) (hm : i.minute ≤ 59) (hs : i.second ≤ 59) :
    pyRound (secondsSinceMidnight i) 900 * 900 ≤ 86400
    ∧ (pyRound (secondsSinceMidnight i) 900 * 900 < 86400 →
        round_to_nearest_quarter i =
          ⟨i.date, pyRound (secondsSinceMidnight i) 900 * 900 / 3600,
           pyRound (secondsSinceMidnight i) 900 * 900 % 3600 / 60, 0⟩)
    ∧ (pyRound (secondsSinceMidnight i) 900 * 900 = 86400 →
        round_to_nearest_quarter i = ⟨nextDate i.date, 0, 0, 0⟩)
    ∧ round_to_nearest_quarter ⟨i.date, 23, 53, 0⟩ = ⟨nextDate i.date, 0, 0, 0⟩ := by
  have hbound : secondsSinceMidnight i ≤ 86399 := by
    unfold secondsSinceMidnight
    omega
  have hq : secondsSinceMidnight i / 900 ≤ 95 := by
    have := Nat.div_le_div_right (c := 900) hbound
    omega
  have hr : pyRound (secondsSinceMidnight i) 900 ≤ 96 := by
    have := pyRound_le_succ (secondsSinceMidnight i) 900
    omega
  refine ⟨by omega, ?_, ?_, quantize_2353 i⟩
  · intro hlt
    have h60 := mul900_mod60 (pyRound (secondsSinceMidnight i) 900)
    rw [round_to_nearest_quarter, addToMidnight_lt _ _ hlt, h60]
  · intro heq
    rw [round_to_nearest_quarter, heq, addToMidnight_full]

/-- Witness for C1 at the concrete instant 2024-01-01 07:31:00, whose
rounded offset 27000 stays below 86400. -/
theorem claim_C1_witness :
    round_to_nearest_quarter ⟨⟨2024, 1, 1⟩, 7, 31, 0⟩ = ⟨⟨2024, 1, 1⟩, 7, 30, 0⟩ := by
  have h := (claim_C1_quantize ⟨⟨2024, 1, 1⟩, 7, 31, 0⟩ (by decide) (by decide)
    (by decide)).2.1 (by decide)
  exact h.trans (by decide)

/-- C5 counterexample: 07:07:30 sits exactly halfway between the
07:00:00 and 07:15:00 buckets (bucket index 28.5), and the code rounds
it DOWN to 07:00:00 (28 is even), not up to 07:15:00 as the claim
states. -/
theorem claim_C5_counterexample :
    round_to_nearest_quarter ⟨⟨2024, 1, 1⟩, 7, 7, 30⟩ = ⟨⟨2024, 1, 1⟩, 7, 0, 0⟩
    ∧ round_to_nearest_quarter ⟨⟨2024, 1, 1⟩, 7, 7, 30⟩ ≠ ⟨⟨2024, 1, 1⟩, 7, 15, 0⟩ := by
  constructor
  · decide
  · decide

/-- C5 amended: on instants lying exactly halfway between two bucket
boundaries the quantizer rounds to the EVEN bucket index (Python float
round, half-to-even), not always up; 23:52:30 still carries to the next
calendar date at 00:00 because its tie is between bucket indices 95 and
96 and the even one, 96, is the upper one. -/
theorem claim_C5_half_even (i : Instant)
    (h : secondsSinceMidnight i % 900 = 450) :
    round_to_nearest_quarter i =
      addToMidnight i.date
        ((if (secondsSinceMidnight i / 900) % 2 = 0 then secondsSinceMidnight i / 900
          else secondsSinceMidnight i / 900 + 1) * 900)
    ∧ ∀ d : Date, round_to_nearest_quarter ⟨d, 23, 52, 30⟩ = ⟨nextDate d, 0, 0, 0⟩ := by
  constructor
  · rw [round_to_nearest_quarter, pyRound]
    simp only [h]
    norm_num
  · exact quantize_2352_30

/-- Witness for C5 at 2024-01-01 23:52:30: the tie carries to
2024-01-02 00:00:00. -/
theorem claim_C5_witness :
    round_to_nearest_quarter ⟨⟨2024, 1, 1⟩, 23, 52, 30⟩ = ⟨⟨2024, 1, 2⟩, 0, 0, 0⟩ := by
  have h := (claim_C5_half_even ⟨⟨2024, 1, 1⟩, 7, 7, 30⟩ (by decide)).2 ⟨2024, 1, 1⟩
  exact h.trans (by decide)

/-- C4: the parser maps the documented shapes to (7, 30), maps "2400"
to (0, 0), rejects "2561", rejects empty and missing input, and is a
total function whose every successful result passed the range
validation (hour at most 23, minute at most 59) — so no input can
raise a fatal error or yield an out-of-range pair. -/
theorem claim_C4_parse_time :
    parse_time_str (some "0730") = some (7, 30)
    ∧ parse_time_str (some "7:30") = some (7, 30)
    ∧ parse_time_str (some "730") = some (7, 30)
    ∧ parse_time_str (some "0730.0") = some (7, 30)
    ∧ parse_time_str (some "2400") = some (0, 0)
    ∧ parse_time_str (some "2561") = none
    ∧ parse_time_str none = none
    ∧ parse_time_str (some "") = none
    ∧ ∀ (v : Option String) (h m : Nat),
        parse_time_str v = some (h, m) → h ≤ 23 ∧ m ≤ 59 := by
  refine ⟨by decide, by decide, by decide, by decide, by decide, by decide,
    by decide, by decide, ?_⟩
  intro v h m hv
  match v with
  | none => simp [parse_time_str] at hv
  | some s =>
      rw [parse_time_str] at hv
      by_cases hc : stripChars s.data = []
      · simp [hc] at hv
      · simp only [if_neg hc] at hv
        match hp : extractedPair (stripChars s.data) with
        | none => rw [hp] at hv; simp at hv
        | some (h0, m0) =>
            rw [hp] at hv
            simp only [] at hv
            by_cases h24 : (h0 = 24 && m0 = 0) = true
            · rw [if_pos h24] at hv
              cases hv
              omega
            · rw [if_neg h24] at hv
              by_cases hrange : (h0 ≤ 23 && m0 ≤ 59) = true
              · rw [if_pos hrange] at hv
                cases hv
                simp at hrange
                omega
              · rw [if_neg hrange] at hv
                cases hv

/-- Witness for C4: the validation conjunct applied at "0730". -/
theorem claim_C4_witness : 7 ≤ 23 ∧ 30 ≤ 59 :=
  claim_C4_parse_time.2.2.2.2.2.2.2.2 (some "0730") 7 30 (by decide)

/-- C6: when the raw time extracts to the special pair (24, 0), the
parser returns (0, 0), and a leg whose base date is available gets the
lookup datetime 00:00:00 of the SAME base calendar date — the (24, 0)
normalization performs no day rollover. -/
theorem claim_C6_midnight_same_date (s : String) (r : FRow) (base : Instant)
    (hx : extractedPair (stripChars s.data) = some (24, 0))
    (ht : rowGet r "DEP_TIME" = Cell.str s)
    (hb : rowGet r "FL_DATE_TS" = Cell.ts base) :
    parse_time_str (some s) = some (0, 0)
    ∧ compute_rounded_dt r "DEP_TIME" = Cell.ts ⟨base.date, 0, 0, 0⟩ := by
  have hne : stripChars s.data ≠ [] := by
    intro hc
    rw [hc] at hx
    simp [extractedPair, extractHM, fallbackPair, firstDigitRun] at hx
  have hparse : parse_time_str (some s) = some (0, 0) := by
    rw [parse_time_str]
    simp only [if_neg hne, hx]
    norm_num
  refine ⟨hparse, ?_⟩
  rw [compute_rounded_dt, ht]
  simp only [cellStrOpt, hparse, hb]
  have hq0 : round_to_nearest_quarter { base with hour := 0, minute := 0, second := 0 }
      = ⟨base.date, 0, 0, 0⟩ := by
    rw [round_to_nearest_quarter]
    have hssm : secondsSinceMidnight { base with hour := 0, minute := 0, second := 0 } = 0 := by
      unfold secondsSinceMidnight
      norm_num
    rw [hssm]
    have hpr : pyRound 0 900 * 900 = 0 := by decide
    rw [hpr, addToMidnight_lt _ _ (by norm_num)]
  rw [hq0]

/-- Witness for C6 at the raw time "2400" on base date 2024-01-01. -/
theorem claim_C6_witness :
    compute_rounded_dt
      [("DEP_TIME", Cell.str "2400"), ("FL_DATE_TS", Cell.ts ⟨⟨2024, 1, 1⟩, 0, 0, 0⟩)]
      "DEP_TIME" = Cell.ts ⟨⟨2024, 1, 1⟩, 0, 0, 0⟩ :=
  (claim_C6_midnight_same_date "2400"
    [("DEP_TIME", Cell.str "2400"), ("FL_DATE_TS", Cell.ts ⟨⟨2024, 1, 1⟩, 0, 0, 0⟩)]
    ⟨⟨2024, 1, 1⟩, 0, 0, 0⟩ (by decide) (by decide) (by decide)).2

/-- C2 counterexample: two weather records with the same
(station, bucket) key but different temp values, placed in two
successive chunks.  The index ends up holding the LATER record's value
(2), not the earlier one's (1): the per-chunk dictionary write
`mapping[key] = rowdict` overwrites entries left by earlier chunks. -/
theorem claim_C2_counterexample :
    buildFind
      [⟨["station", "valid", "temp"],
        [⟨some "JFK", some "2024-01-01 07:31:00", [("temp", some 1)]⟩]⟩,
       ⟨["station", "valid", "temp"],
        [⟨some "JFK", some "2024-01-01 07:31:00", [("temp", some 2)]⟩]⟩]
      ("JFK", ⟨⟨2024, 1, 1⟩, 7, 30, 0⟩) = some [("temp", some 2)]
    ∧ buildFind
      [⟨["station", "valid", "temp"],
        [⟨some "JFK", some "2024-01-01 07:31:00", [("temp", some 1)]⟩]⟩,
       ⟨["station", "valid", "temp"],
        [⟨some "JFK", some "2024-01-01 07:31:00", [("temp", some 2)]⟩]⟩]
      ("JFK", ⟨⟨2024, 1, 1⟩, 7, 30, 0⟩) ≠ some [("temp", some 1)] := by
  constructor
  · decide
  · decide

/-- C2 amended: duplicate-key resolution is first-wins only WITHIN one
chunk (and per field, pandas `first` skips NaN in an earlier record in
favour of a later non-NaN one); ACROSS chunks the later chunk's
grouped record overwrites the entry of an earlier chunk, so the index
finally holds the last batch's value for a duplicated key. -/
theorem claim_C2_index_duplicates (st vs : String) (t : Instant) (v1 v2 : Int)
    (hv : pdToDatetime (some vs) = some t) :
    buildFind
      [⟨["station", "valid", "temp"],
        [⟨some st, some vs, [("temp", some v1)]⟩, ⟨some st, some vs, [("temp", some v2)]⟩]⟩]
      (normStation (some st), round_to_nearest_quarter t) = some [("temp", some v1)]
    ∧ buildFind
      [⟨["station", "valid", "temp"],
        [⟨some st, some vs, [("temp", none)]⟩, ⟨some st, some vs, [("temp", some v2)]⟩]⟩]
      (normStation (some st), round_to_nearest_quarter t) = some [("temp", some v2)]
    ∧ buildFind
      [⟨["station", "valid", "temp"], [⟨some st, some vs, [("temp", some v1)]⟩]⟩,
       ⟨["station", "valid", "temp"], [⟨some st, some vs, [("temp", some v2)]⟩]⟩]
      (normStation (some st), round_to_nearest_quarter t) = some [("temp", some v2)] := by
  refine ⟨?_, ?_, ?_⟩ <;>
    simp [buildFind, build_weather_map, buildGo, processChunk, chunkKeyed,
      groupFirst, groupFirstAux, insertOverwrite, wmapFind, lookupField, hv,
      Except.map]

/-- Witness for C2 at station JFK, timestamp 2024-01-01 07:31:00 and
temp values 1 and 2. -/
theorem claim_C2_witness :
    buildFind
      [⟨["station", "valid", "temp"],
        [⟨some "JFK", some "2024-01-01 07:31:00", [("temp", some 1)]⟩]⟩,
       ⟨["station", "valid", "temp"],
        [⟨some "JFK", some "2024-01-01 07:31:00", [("temp", some 2)]⟩]⟩]
      (normStation (some "JFK"), round_to_nearest_quarter ⟨⟨2024, 1, 1⟩, 7, 31, 0⟩)
      = some [("temp", some 2)] :=
  (claim_C2_index_duplicates "JFK" "2024-01-01 07:31:00" ⟨⟨2024, 1, 1⟩, 7, 31, 0⟩ 1 2
    (by decide)).2.2

/-- Chunk with the records whose `valid` timestamp does not parse
removed (the per-record `dropna` effect). -/
def dropUnparseable (c : WChunk) : WChunk :=
  ⟨c.cols, c.rows.filter (fun r => (pdToDatetime r.valid).isSome)⟩

lemma chunkKeyed_dropUnparseable (rows : List WRecord) :
    chunkKeyed (rows.filter (fun r => (pdToDatetime r.valid).isSome)) = chunkKeyed rows := by
  induction rows with
  | nil => rfl
  | cons r rs ih =>
      cases h : pdToDatetime r.valid with
      | none =>
          simp [chunkKeyed, List.filter_cons, List.filterMap_cons, h] at ih ⊢
          exact ih
      | some t =>
          simp [chunkKeyed, List.filter_cons, List.filterMap_cons, h] at ih ⊢
          exact ih

lemma processChunk_dropUnparseable (m : WMap) (cols : Option (List String)) (c : WChunk) :
    processChunk m cols (dropUnparseable c) = processChunk m cols c := by
  simp [processChunk, dropUnparseable, chunkKeyed_dropUnparseable]

lemma buildGo_dropUnparseable (chunks : List WChunk) : ∀ acc,
    buildGo acc (chunks.map dropUnparseable) = buildGo acc chunks := by
  induction chunks with
  | nil => intro acc; rfl
  | cons c cs ih =>
      intro acc
      simp only [List.map_cons, buildGo]
      have hc : (dropUnparseable c).cols = c.cols := rfl
      rw [hc]
      by_cases h : "station" ∈ c.cols
      · rw [if_pos h, if_pos h, processChunk_dropUnparseable, ih]
      · rw [if_neg h, if_neg h]

lemma buildGo_ok_iff (chunks : List WChunk) : ∀ acc,
    isOkE (buildGo acc chunks) = true ↔ ∀ c ∈ chunks, "station" ∈ c.cols := by
  induction chunks with
  | nil => intro acc; simp [buildGo, isOkE]
  | cons c cs ih =>
      intro acc
      by_cases h : "station" ∈ c.cols
      · simp [buildGo, h, ih]
      · simp [buildGo, h, isOkE]

lemma buildGo_error_iff (chunks : List WChunk) : ∀ acc,
    buildGo acc chunks = Except.error stationColMissingMsg
      ↔ ¬ ∀ c ∈ chunks, "station" ∈ c.cols := by
  induction chunks with
  | nil => intro acc; simp [buildGo]
  | cons c cs ih =>
      intro acc
      by_cases h : "station" ∈ c.cols
      · simp [buildGo, h, ih]
      · simp [buildGo, h]

/-- C7: the index build fails exactly when some chunk lacks the
station column, and then with the fatal missing-station-column error;
records whose `valid` timestamp does not parse are dropped per record —
removing them from the input changes nothing, so their presence never
aborts the run nor affects the surviving records. -/
theorem claim_C7_station_fatal (chunks : List WChunk) :
    (isOkE (build_weather_map chunks) = true ↔ ∀ c ∈ chunks, "station" ∈ c.cols)
    ∧ (build_weather_map chunks = Except.error stationColMissingMsg ↔
        ¬ ∀ c ∈ chunks, "station" ∈ c.cols)
    ∧ build_weather_map chunks = build_weather_map (chunks.map dropUnparseable) := by
  refine ⟨?_, ?_, ?_⟩
  · rw [build_weather_map]
    rw [show ∀ e : Except String (WMap × Option (List String)),
        isOkE (e.map (fun acc => (acc.1, acc.2.getD []))) = isOkE e from ?_]
    · exact buildGo_ok_iff chunks _
    · intro e
      cases e <;> rfl
  · rw [build_weather_map]
    rw [show ∀ e : Except String (WMap × Option (List String)),
        (e.map (fun acc => (acc.1, acc.2.getD [])) = Except.error stationColMissingMsg)
          = (e = Except.error stationColMissingMsg) from ?_]
    · exact buildGo_error_iff chunks _
    · intro e
      cases e with
      | ok a => simp [Except.map]
      | error b => simp [Except.map]
  · rw [build_weather_map, build_weather_map, buildGo_dropUnparseable]

/-- Witness for C7: a single conforming chunk (station column present,
one unparseable record) builds successfully. -/
theorem claim_C7_witness :
    isOkE (build_weather_map
      [⟨["station", "valid", "temp"], [⟨some "JFK", some "garbage", [("temp", some 1)]⟩]⟩])
      = true :=
  (claim_C7_station_fatal
    [⟨["station", "valid", "temp"], [⟨some "JFK", some "garbage", [("temp", some 1)]⟩]⟩]).1.mpr
    (by decide)

/-- C3: a flight with ORIGIN "jfk " departing at "0730" on 2024-01-01
matched against a weather record for station "JFK" at
2024-01-01 07:31:00 with temp 5 produces DEP_temp = 5 in its output
row; both instants quantize to the 07:30:00 bucket and the two station
spellings normalize to the same code. -/
theorem claim_C3_end_to_end :
    runCell (attach_weather
      [⟨["station", "valid", "temp"],
        [⟨some "JFK", some "2024-01-01 07:31:00", [("temp", some 5)]⟩]⟩]
      ⟨["FL_DATE", "ORIGIN", "DEST", "DEP_TIME", "ARR_TIME", "YEAR", "MONTH"],
       [[("FL_DATE", Cell.str "2024-01-01"), ("ORIGIN", Cell.str "jfk "),
         ("DEST", Cell.str "LAX"), ("DEP_TIME", Cell.str "0730"),
         ("ARR_TIME", Cell.str "0900"), ("YEAR", Cell.str "2024"),
         ("MONTH", Cell.str "1")]]⟩)
      0 "DEP_temp" = some (Cell.int 5)
    ∧ round_to_nearest_quarter ⟨⟨2024, 1, 1⟩, 7, 30, 0⟩ = ⟨⟨2024, 1, 1⟩, 7, 30, 0⟩
    ∧ round_to_nearest_quarter ⟨⟨2024, 1, 1⟩, 7, 31, 0⟩ = ⟨⟨2024, 1, 1⟩, 7, 30, 0⟩
    ∧ normStation (some "jfk ") = normStation (some "JFK") := by
  refine ⟨by decide, by decide, by decide, by decide⟩

/-- C10: station normalization stringifies a missing (NaN) station to
the literal text NAN on both the flight side and the weather side, so
a flight leg with a missing ORIGIN is looked up under the key NAN and
can match a weather observation whose station cell is also missing. -/
theorem claim_C10_nan_placeholder :
    normStation none = "NAN"
    ∧ cellNormStation Cell.na = Cell.str "NAN"
    ∧ runCell (attach_weather
      [⟨["station", "valid", "temp"],
        [⟨none, some "2024-01-01 07:31:00", [("temp", some 5)]⟩]⟩]
      ⟨["FL_DATE", "ORIGIN", "DEST", "DEP_TIME", "ARR_TIME", "YEAR", "MONTH"],
       [[("FL_DATE", Cell.str "2024-01-01"), ("ORIGIN", Cell.na),
         ("DEST", Cell.str "LAX"), ("DEP_TIME", Cell.str "0730"),
         ("ARR_TIME", Cell.str "0900"), ("YEAR", Cell.str "2024"),
         ("MONTH", Cell.str "1")]]⟩)
      0 "DEP_temp" = some (Cell.int 5) := by
  refine ⟨by decide, by decide, by decide⟩

/-! Infrastructure lemmas about rows, tables and the prefixed column
names, used to characterize the output schema of the pipeline. -/

lemma rowGet_rowSet_self (r : FRow) (c : String) (v : Cell) :
    rowGet (rowSet r c v) c = v := by
  induction r with
  | nil => simp [rowSet, rowGet]
  | cons p t ih =>
      by_cases h : p.1 = c
      · simp [rowSet, rowGet, h]
      · simp [rowSet, rowGet, h, ih]

lemma rowGet_rowSet_ne (r : FRow) {c c2 : String} (v : Cell) (h : c2 ≠ c) :
    rowGet (rowSet r c v) c2 = rowGet r c2 := by
  induction r with
  | nil => simp [rowSet, rowGet, Ne.symm h]
  | cons p t ih =>
      by_cases hp : p.1 = c
      · simp [rowSet, rowGet, hp, Ne.symm h]
      · simp [rowSet, rowGet, hp, ih]

/-- Presence of a column key in one row (pandas column membership at
the row level). -/
def rowHas : FRow → String → Bool
  | [], _ => false
  | (c0, _) :: t, c => c0 = c || rowHas t c

lemma rowHas_rowSet_self (r : FRow) (c : String) (v : Cell) :
    rowHas (rowSet r c v) c = true := by
  induction r with
  | nil => simp [rowSet, rowHas]
  | cons p t ih =>
      by_cases h : p.1 = c
      · simp [rowSet, rowHas, h]
      · simp [rowSet, rowHas, h, ih]

lemma rowHas_rowSet_mono (r : FRow) {c2 : String} (c : String) (v : Cell)
    (h : rowHas r c2 = true) : rowHas (rowSet r c v) c2 = true := by
  induction r with
  | nil => simp [rowHas] at h
  | cons p t ih =>
      simp only [rowHas, Bool.or_eq_true, decide_eq_true_eq] at h
      by_cases hp : p.1 = c
      · rcases h with h1 | h1
        · have hcc : c = c2 := by rw [← hp, h1]
          simp [rowSet, hp, rowHas, hcc]
        · simp [rowSet, hp, rowHas, h1]
      · rcases h with h1 | h1
        · by_cases hc2 : c2 = c
          · simp [rowSet, hp, rowHas, h1, hc2]
          · simp [rowSet, hp, rowHas, h1, hc2]
        · simp [rowSet, hp, rowHas, ih h1]

lemma rows_map_getD (g : FRow → FRow) (l : List FRow) :
    ∀ (i : Nat), i < l.length → (l.map g).getD i [] = g (l.getD i []) := by
  induction l with
  | nil => intro i hi; simp at hi
  | cons r rs ih =>
      intro i hi
      cases i with
      | zero => rfl
      | succ n =>
          simp only [List.map_cons, List.getD_cons_succ]
          exact ih n (by simpa using hi)

lemma rows_getD_ge (l : List FRow) (i : Nat) (hi : l.length ≤ i) :
    l.getD i [] = [] := by
  induction l generalizing i with
  | nil => simp
  | cons r rs ih =>
      cases i with
      | zero => simp at hi
      | succ n => simpa using ih n (by simpa using hi)

lemma appendNew_of_mem {cs : List String} {c : String} (h : c ∈ cs) :
    appendNew cs c = cs := by
  simp [appendNew, h]

lemma appendNew_of_not_mem {cs : List String} {c : String} (h : c ∉ cs) :
    appendNew cs c = cs ++ [c] := by
  simp [appendNew, h]

lemma mem_appendNew_of_mem {cs : List String} {c2 : String} (c : String) (h : c2 ∈ cs) :
    c2 ∈ appendNew cs c := by
  by_cases hc : c ∈ cs
  · rwa [appendNew_of_mem hc]
  · rw [appendNew_of_not_mem hc]
    exact List.mem_append_left _ h

lemma self_mem_appendNew (cs : List String) (c : String) : c ∈ appendNew cs c := by
  by_cases hc : c ∈ cs
  · rwa [appendNew_of_mem hc]
  · rw [appendNew_of_not_mem hc]
    exact List.mem_append_right _ (by simp)

lemma cols_mapCol (t : FTable) (c : String) (f : FRow → Cell) :
    (mapCol t c f).cols = appendNew t.cols c := rfl

lemma rows_length_mapCol (t : FTable) (c : String) (f : FRow → Cell) :
    (mapCol t c f).rows.length = t.rows.length := by
  simp [mapCol]

lemma cellAt_mapCol_ne (t : FTable) {c c2 : String} (f : FRow → Cell) (i : Nat)
    (h : c2 ≠ c) : cellAt (mapCol t c f) i c2 = cellAt t i c2 := by
  unfold cellAt mapCol
  by_cases hi : i < t.rows.length
  · rw [rows_map_getD _ _ _ hi]
    exact rowGet_rowSet_ne _ _ h
  · rw [rows_getD_ge _ _ (by simpa using Nat.le_of_not_lt hi),
      rows_getD_ge _ _ (Nat.le_of_not_lt hi)]

lemma cellAt_mapCol_self (t : FTable) (c : String) (f : FRow → Cell) (i : Nat)
    (hi : i < t.rows.length) :
    cellAt (mapCol t c f) i c = f (t.rows.getD i []) := by
  unfold cellAt mapCol
  rw [rows_map_getD _ _ _ hi]
  exact rowGet_rowSet_self _ _ _

lemma dep_append_ne_arr_append (a b : String) : ("DEP_" ++ a) ≠ ("ARR_" ++ b) := by
  intro h
  have h2 := congrArg String.data h
  simp [String.data_append] at h2

lemma dep_append_inj {a b : String} (h : ("DEP_" ++ a) = ("DEP_" ++ b)) : a = b := by
  have h2 := congrArg String.data h
  simp [String.data_append] at h2
  exact String.ext h2

lemma arr_append_inj {a b : String} (h : ("ARR_" ++ a) = ("ARR_" ++ b)) : a = b := by
  have h2 := congrArg String.data h
  simp [String.data_append] at h2
  exact String.ext h2

/-! Fold lemmas: presence and preservation of row keys through the
pre-allocation and lookup passes. -/

lemma rowHas_initWeatherRow_mono (wcols : List String) (r : FRow) {c : String}
    (h : rowHas r c = true) : rowHas (initWeatherRow wcols r) c = true := by
  induction wcols generalizing r with
  | nil => exact h
  | cons wc rest ih =>
      simp only [initWeatherRow, List.foldl_cons] at *
      exact ih _ (rowHas_rowSet_mono _ _ _ (rowHas_rowSet_mono _ _ _ h))

lemma rowHas_initWeatherRow (wcols : List String) (r : FRow) {wc : String}
    (h : wc ∈ wcols) :
    rowHas (initWeatherRow wcols r) ("DEP_" ++ wc) = true
    ∧ rowHas (initWeatherRow wcols r) ("ARR_" ++ wc) = true := by
  induction wcols generalizing r with
  | nil => simp at h
  | cons w0 rest ih =>
      rcases List.mem_cons.mp h with h1 | h1
      · subst h1
        simp only [initWeatherRow, List.foldl_cons]
        constructor
        · exact rowHas_initWeatherRow_mono rest _
            (rowHas_rowSet_mono _ _ _ (rowHas_rowSet_self _ _ _))
        · exact rowHas_initWeatherRow_mono rest _ (rowHas_rowSet_self _ _ _)
      · simp only [initWeatherRow, List.foldl_cons]
        exact ih _ h1

lemma rowHas_foldl_rowSet_mono (pre : String) (g : String → Cell)
    (wcols : List String) (r : FRow) {c : String} (h : rowHas r c = true) :
    rowHas (wcols.foldl (fun r2 wc => rowSet r2 (pre ++ wc) (g wc)) r) c = true := by
  induction wcols generalizing r with
  | nil => exact h
  | cons w rest ih =>
      simp only [List.foldl_cons]
      exact ih _ (rowHas_rowSet_mono _ _ _ h)

lemma rowHas_attachSide_mono (wmap : WMap) (wcols : List String) (pre : String)
    (key : Option WKey) (r : FRow) {c : String} (h : rowHas r c = true) :
    rowHas (attachSide wmap wcols pre key r) c = true := by
  unfold attachSide
  cases hk : key.bind (wmapFind wmap) with
  | none => exact h
  | some w => exact rowHas_foldl_rowSet_mono _ _ _ _ h

lemma rowHas_attachRow_mono (wmap : WMap) (wcols : List String) (r : FRow)
    {c : String} (h : rowHas r c = true) :
    rowHas (attachRow wmap wcols r) c = true := by
  unfold attachRow
  exact rowHas_attachSide_mono _ _ _ _ _ (rowHas_attachSide_mono _ _ _ _ _ h)

lemma rowGet_foldl_rowSet_ne (pre : String) (g : String → Cell)
    (wcols : List String) (r : FRow) {c : String}
    (h : ∀ wc ∈ wcols, c ≠ pre ++ wc) :
    rowGet (wcols.foldl (fun r2 wc => rowSet r2 (pre ++ wc) (g wc)) r) c = rowGet r c := by
  induction wcols generalizing r with
  | nil => rfl
  | cons w rest ih =>
      simp only [List.foldl_cons]
      rw [ih _ (fun wc hwc => h wc (List.mem_cons_of_mem _ hwc)),
        rowGet_rowSet_ne _ _ (h w (by simp))]

lemma rowGet_attachSide_ne (wmap : WMap) (wcols : List String) (pre : String)
    (key : Option WKey) (r : FRow) {c : String}
    (h : ∀ wc ∈ wcols, c ≠ pre ++ wc) :
    rowGet (attachSide wmap wcols pre key r) c = rowGet r c := by
  unfold attachSide
  cases hk : key.bind (wmapFind wmap) with
  | none => rfl
  | some w => exact rowGet_foldl_rowSet_ne _ _ _ _ h

lemma rowGet_attachRow_ne (wmap : WMap) (wcols : List String) (r : FRow)
    {c : String} (h : ∀ wc ∈ wcols, c ≠ "DEP_" ++ wc ∧ c ≠ "ARR_" ++ wc) :
    rowGet (attachRow wmap wcols r) c = rowGet r c := by
  unfold attachRow
  rw [rowGet_attachSide_ne _ _ _ _ _ (fun wc hwc => (h wc hwc).2),
    rowGet_attachSide_ne _ _ _ _ _ (fun wc hwc => (h wc hwc).1)]

lemma rowGet_initWeatherRow_ne (wcols : List String) (r : FRow) {c : String}
    (h : ∀ wc ∈ wcols, c ≠ "DEP_" ++ wc ∧ c ≠ "ARR_" ++ wc) :
    rowGet (initWeatherRow wcols r) c = rowGet r c := by
  induction wcols generalizing r with
  | nil => rfl
  | cons w rest ih =>
      simp only [initWeatherRow, List.foldl_cons] at *
      rw [ih _ (fun wc hwc => h wc (List.mem_cons_of_mem _ hwc)),
        rowGet_rowSet_ne _ _ (h w (by simp)).2,
        rowGet_rowSet_ne _ _ (h w (by simp)).1]

lemma mem_weatherColsAfter_of_mem (wcols : List String) {cs : List String}
    {c : String} (h : c ∈ cs) : c ∈ weatherColsAfter wcols cs := by
  induction wcols generalizing cs with
  | nil => exact h
  | cons wc rest ih =>
      simp only [weatherColsAfter, List.foldl_cons] at *
      exact ih (mem_appendNew_of_mem _ (mem_appendNew_of_mem _ h))

lemma mem_weatherColsAfter (wcols : List String) (cs : List String) {wc : String}
    (h : wc ∈ wcols) :
    ("DEP_" ++ wc) ∈ weatherColsAfter wcols cs
    ∧ ("ARR_" ++ wc) ∈ weatherColsAfter wcols cs := by
  induction wcols generalizing cs with
  | nil => simp at h
  | cons w0 rest ih =>
      rcases List.mem_cons.mp h with h1 | h1
      · subst h1
        simp only [weatherColsAfter, List.foldl_cons]
        constructor
        · exact mem_weatherColsAfter_of_mem rest
            (mem_appendNew_of_mem _ (self_mem_appendNew _ _))
        · exact mem_weatherColsAfter_of_mem rest (self_mem_appendNew _ _)
      · simp only [weatherColsAfter, List.foldl_cons]
        exact ih _ h1

lemma attach_ok_shape {wchunks : List WChunk} {fdf out : FTable}
    {wmap : WMap} {wcols : List String}
    (hb : build_weather_map wchunks = Except.ok (wmap, wcols))
    (h : attach_weather wchunks fdf = Except.ok out) :
    ∃ fdf4 : FTable, out = stage_attach wmap wcols (stage_rounds fdf4) := by
  unfold attach_weather at h
  rw [hb] at h
  simp only [Bind.bind, Except.bind] at h
  by_cases h1 : "FL_DATE" ∉ fdf.cols
  · rw [if_pos h1] at h
    simp [throw, throwThe, MonadExceptOf.throw] at h
  · rw [if_neg h1] at h
    by_cases h2 : "ORIGIN" ∉ (stage_fl_date_ts fdf).cols
    · rw [if_pos h2] at h
      simp [throw, throwThe, MonadExceptOf.throw] at h
    · rw [if_neg h2] at h
      by_cases h3 : "DEST" ∉ (mapCol (stage_fl_date_ts fdf) "ORIGIN"
          (fun r => cellNormStation (rowGet r "ORIGIN"))).cols
      · rw [if_pos h3] at h
        simp [throw, throwThe, MonadExceptOf.throw] at h
      · rw [if_neg h3] at h
        set fdf3 := mapCol (mapCol (stage_fl_date_ts fdf) "ORIGIN"
          (fun r => cellNormStation (rowGet r "ORIGIN"))) "DEST"
          (fun r => cellNormStation (rowGet r "DEST")) with hfdf3
        by_cases h4 : "YEAR" ∈ fdf3.cols ∧ "MONTH" ∈ fdf3.cols
        · rw [if_pos h4] at h
          simp only [pure, Except.pure] at h
          exact ⟨fdf3, (Except.ok.injEq _ _).mp h.symm ▸ rfl⟩
        · rw [if_neg h4] at h
          by_cases h5 : flDateAllParse fdf3 = true
          · rw [if_pos h5] at h
            simp only [pure, Except.pure] at h
            exact ⟨stage_year_month fdf3, by cases h; rfl⟩
          · rw [if_neg h5] at h
            simp [throw, throwThe, MonadExceptOf.throw] at h

lemma attach_ok_eq {wchunks : List WChunk} {fdf : FTable}
    {wmap : WMap} {wcols : List String}
    (hb : build_weather_map wchunks = Except.ok (wmap, wcols))
    (hfl : "FL_DATE" ∈ fdf.cols) (ho : "ORIGIN" ∈ fdf.cols) (hd : "DEST" ∈ fdf.cols)
    (hy : "YEAR" ∈ fdf.cols) (hmo : "MONTH" ∈ fdf.cols) :
    attach_weather wchunks fdf = Except.ok (stage_attach wmap wcols (stage_rounds
      (mapCol (mapCol (stage_fl_date_ts fdf) "ORIGIN"
        (fun r => cellNormStation (rowGet r "ORIGIN")))
        "DEST" (fun r => cellNormStation (rowGet r "DEST"))))) := by
  unfold attach_weather
  rw [hb]
  simp only [Bind.bind, Except.bind]
  rw [if_neg (not_not_intro hfl)]
  rw [if_neg (not_not_intro (show "ORIGIN" ∈ (stage_fl_date_ts fdf).cols from
    mem_appendNew_of_mem _ ho))]
  rw [if_neg (not_not_intro (show "DEST" ∈ (mapCol (stage_fl_date_ts fdf) "ORIGIN"
      (fun r => cellNormStation (rowGet r "ORIGIN"))).cols from
    mem_appendNew_of_mem _ (mem_appendNew_of_mem _ hd)))]
  rw [if_pos (show _ ∧ _ from
    ⟨show "YEAR" ∈ (mapCol (mapCol (stage_fl_date_ts fdf) "ORIGIN"
        (fun r => cellNormStation (rowGet r "ORIGIN"))) "DEST"
        (fun r => cellNormStation (rowGet r "DEST"))).cols from
      mem_appendNew_of_mem _ (mem_appendNew_of_mem _ (mem_appendNew_of_mem _ hy)),
     show "MONTH" ∈ (mapCol (mapCol (stage_fl_date_ts fdf) "ORIGIN"
        (fun r => cellNormStation (rowGet r "ORIGIN"))) "DEST"
        (fun r => cellNormStation (rowGet r "DEST"))).cols from
      mem_appendNew_of_mem _ (mem_appendNew_of_mem _ (mem_appendNew_of_mem _ hmo))⟩)]
  rfl

/-- Table of a run result, the empty table when the run failed. -/
def runTable (res : Except String FTable) : FTable :=
  match res with
  | Except.ok t => t
  | Except.error _ => ⟨[], []⟩

/-- Presence of a column key in row `i` of a run result. -/
def runHas (res : Except String FTable) (i : Nat) (c : String) : Bool :=
  match res with
  | Except.ok t => rowHas (t.rows.getD i []) c
  | Except.error _ => false

/-- The two prefixed column names of each weather field, in assignment
order. -/
def pairCols : List String → List String
  | [] => []
  | wc :: rest => ("DEP_" ++ wc) :: ("ARR_" ++ wc) :: pairCols rest

lemma dep_append_ne_ts (wc : String) : ("DEP_" ++ wc) ≠ "FL_DATE_TS" := by
  intro h
  have h2 := congrArg String.data h
  simp [String.data_append] at h2

lemma arr_append_ne_ts (wc : String) : ("ARR_" ++ wc) ≠ "FL_DATE_TS" := by
  intro h
  have h2 := congrArg String.data h
  simp [String.data_append] at h2

lemma origin_ne_dep_append (wc : String) : "ORIGIN" ≠ "DEP_" ++ wc := by
  intro h
  have h2 := congrArg String.data h
  simp [String.data_append] at h2

lemma origin_ne_arr_append (wc : String) : "ORIGIN" ≠ "ARR_" ++ wc := by
  intro h
  have h2 := congrArg String.data h
  simp [String.data_append] at h2

lemma dest_ne_dep_append (wc : String) : "DEST" ≠ "DEP_" ++ wc := by
  intro h
  have h2 := congrArg String.data h
  simp [String.data_append] at h2

lemma dest_ne_arr_append (wc : String) : "DEST" ≠ "ARR_" ++ wc := by
  intro h
  have h2 := congrArg String.data h
  simp [String.data_append] at h2

lemma rows_length_stage_rounds (t : FTable) :
    (stage_rounds t).rows.length = t.rows.length := by
  simp [stage_rounds]

lemma rows_length_stage_attach (wmap : WMap) (wcols : List String) (t : FTable) :
    (stage_attach wmap wcols t).rows.length = t.rows.length := by
  simp [stage_attach]

lemma weatherColsAfter_eq : ∀ (wcols : List String) (cs : List String), wcols.Nodup →
    (∀ wc ∈ wcols, ("DEP_" ++ wc) ∉ cs ∧ ("ARR_" ++ wc) ∉ cs) →
    weatherColsAfter wcols cs = cs ++ pairCols wcols := by
  intro wcols
  induction wcols with
  | nil => intro cs _ _; simp [weatherColsAfter, pairCols]
  | cons wc rest ih =>
      intro cs hnd hnew
      obtain ⟨hdep, harr⟩ := hnew wc (List.mem_cons_self _ _)
      have hwcrest : wc ∉ rest := (List.nodup_cons.mp hnd).1
      have e1 : appendNew cs ("DEP_" ++ wc) = cs ++ ["DEP_" ++ wc] :=
        appendNew_of_not_mem hdep
      have harr2 : ("ARR_" ++ wc) ∉ cs ++ ["DEP_" ++ wc] := by
        intro hmem
        rcases List.mem_append.mp hmem with hc | hc
        · exact harr hc
        · exact (dep_append_ne_arr_append wc wc) (List.mem_singleton.mp hc).symm
      have e2 : appendNew (cs ++ ["DEP_" ++ wc]) ("ARR_" ++ wc)
          = cs ++ ["DEP_" ++ wc, "ARR_" ++ wc] := by
        rw [appendNew_of_not_mem harr2]
        simp
      have hnew2 : ∀ w2 ∈ rest, ("DEP_" ++ w2) ∉ cs ++ ["DEP_" ++ wc, "ARR_" ++ wc]
          ∧ ("ARR_" ++ w2) ∉ cs ++ ["DEP_" ++ wc, "ARR_" ++ wc] := by
        intro w2 hw2
        obtain ⟨hdep2, harr22⟩ := hnew w2 (List.mem_cons_of_mem _ hw2)
        constructor
        · intro hmem
          rcases List.mem_append.mp hmem with hc | hc
          · exact hdep2 hc
          · rcases List.mem_cons.mp hc with hc2 | hc2
            · exact hwcrest (dep_append_inj hc2 ▸ hw2)
            · exact (dep_append_ne_arr_append w2 wc) (List.mem_singleton.mp hc2)
        · intro hmem
          rcases List.mem_append.mp hmem with hc | hc
          · exact harr22 hc
          · rcases List.mem_cons.mp hc with hc2 | hc2
            · exact (dep_append_ne_arr_append wc w2) hc2.symm
            · exact hwcrest (arr_append_inj (List.mem_singleton.mp hc2) ▸ hw2)
      calc weatherColsAfter (wc :: rest) cs
          = weatherColsAfter rest (appendNew (appendNew cs ("DEP_" ++ wc)) ("ARR_" ++ wc)) := rfl
        _ = weatherColsAfter rest (cs ++ ["DEP_" ++ wc, "ARR_" ++ wc]) := by rw [e1, e2]
        _ = (cs ++ ["DEP_" ++ wc, "ARR_" ++ wc]) ++ pairCols rest :=
            ih _ (List.nodup_cons.mp hnd).2 hnew2
        _ = cs ++ pairCols (wc :: rest) := by simp [pairCols]

/-- C8: every successful run's output contains the DEP and ARR column
for every discovered weather field, in the schema and in every row
(present even when the cell is empty); concretely, a flight whose
DEP_TIME is empty still yields a row carrying an empty DEP_temp cell
with no fatal error, while the other row of the same run is matched
normally. -/
theorem claim_C8_uniform_output :
    (∀ (wchunks : List WChunk) (fdf out : FTable) (wmap : WMap) (wcols : List String),
      build_weather_map wchunks = Except.ok (wmap, wcols) →
      attach_weather wchunks fdf = Except.ok out →
      ∀ wc ∈ wcols, ("DEP_" ++ wc) ∈ out.cols ∧ ("ARR_" ++ wc) ∈ out.cols
        ∧ ∀ r ∈ out.rows, rowHas r ("DEP_" ++ wc) = true ∧ rowHas r ("ARR_" ++ wc) = true)
    ∧ isOkE (attach_weather
        [⟨["station", "valid", "temp"],
          [⟨some "JFK", some "2024-01-01 07:31:00", [("temp", some 5)]⟩]⟩]
        ⟨["FL_DATE", "ORIGIN", "DEST", "DEP_TIME", "ARR_TIME", "YEAR", "MONTH"],
         [[("FL_DATE", Cell.str "2024-01-01"), ("ORIGIN", Cell.str "jfk "),
           ("DEST", Cell.str "LAX"), ("DEP_TIME", Cell.str ""),
           ("ARR_TIME", Cell.str ""), ("YEAR", Cell.str "2024"),
           ("MONTH", Cell.str "1")],
          [("FL_DATE", Cell.str "2024-01-01"), ("ORIGIN", Cell.str "jfk "),
           ("DEST", Cell.str "LAX"), ("DEP_TIME", Cell.str "0730"),
           ("ARR_TIME", Cell.str ""), ("YEAR", Cell.str "2024"),
           ("MONTH", Cell.str "1")]]⟩) = true
    ∧ runHas (attach_weather
        [⟨["station", "valid", "temp"],
          [⟨some "JFK", some "2024-01-01 07:31:00", [("temp", some 5)]⟩]⟩]
        ⟨["FL_DATE", "ORIGIN", "DEST", "DEP_TIME", "ARR_TIME", "YEAR", "MONTH"],
         [[("FL_DATE", Cell.str "2024-01-01"), ("ORIGIN", Cell.str "jfk "),
           ("DEST", Cell.str "LAX"), ("DEP_TIME", Cell.str ""),
           ("ARR_TIME", Cell.str ""), ("YEAR", Cell.str "2024"),
           ("MONTH", Cell.str "1")],
          [("FL_DATE", Cell.str "2024-01-01"), ("ORIGIN", Cell.str "jfk "),
           ("DEST", Cell.str "LAX"), ("DEP_TIME", Cell.str "0730"),
           ("ARR_TIME", Cell.str ""), ("YEAR", Cell.str "2024"),
           ("MONTH", Cell.str "1")]]⟩) 0 "DEP_temp" = true
    ∧ runCell (attach_weather
        [⟨["station", "valid", "temp"],
          [⟨some "JFK", some "2024-01-01 07:31:00", [("temp", some 5)]⟩]⟩]
        ⟨["FL_DATE", "ORIGIN", "DEST", "DEP_TIME", "ARR_TIME", "YEAR", "MONTH"],
         [[("FL_DATE", Cell.str "2024-01-01"), ("ORIGIN", Cell.str "jfk "),
           ("DEST", Cell.str "LAX"), ("DEP_TIME", Cell.str ""),
           ("ARR_TIME", Cell.str ""), ("YEAR", Cell.str "2024"),
           ("MONTH", Cell.str "1")],
          [("FL_DATE", Cell.str "2024-01-01"), ("ORIGIN", Cell.str "jfk "),
           ("DEST", Cell.str "LAX"), ("DEP_TIME", Cell.str "0730"),
           ("ARR_TIME", Cell.str ""), ("YEAR", Cell.str "2024"),
           ("MONTH", Cell.str "1")]]⟩) 0 "DEP_temp" = some Cell.na
    ∧ runCell (attach_weather
        [⟨["station", "valid", "temp"],
          [⟨some "JFK", some "2024-01-01 07:31:00", [("temp", some 5)]⟩]⟩]
        ⟨["FL_DATE", "ORIGIN", "DEST", "DEP_TIME", "ARR_TIME", "YEAR", "MONTH"],
         [[("FL_DATE", Cell.str "2024-01-01"), ("ORIGIN", Cell.str "jfk "),
           ("DEST", Cell.str "LAX"), ("DEP_TIME", Cell.str ""),
           ("ARR_TIME", Cell.str ""), ("YEAR", Cell.str "2024"),
           ("MONTH", Cell.str "1")],
          [("FL_DATE", Cell.str "2024-01-01"), ("ORIGIN", Cell.str "jfk "),
           ("DEST", Cell.str "LAX"), ("DEP_TIME", Cell.str "0730"),
           ("ARR_TIME", Cell.str ""), ("YEAR", Cell.str "2024"),
           ("MONTH", Cell.str "1")]]⟩) 1 "DEP_temp" = some (Cell.int 5) := by
  refine ⟨?_, by decide, by decide, by decide, by decide⟩
  intro wchunks fdf out wmap wcols hb h wc hwc
  obtain ⟨fdf4, rfl⟩ := attach_ok_shape hb h
  refine ⟨(mem_weatherColsAfter wcols _ hwc).1, (mem_weatherColsAfter wcols _ hwc).2, ?_⟩
  intro r hr
  obtain ⟨r0, hr0, rfl⟩ := List.mem_map.mp hr
  exact ⟨rowHas_attachRow_mono _ _ _ (rowHas_initWeatherRow wcols r0 hwc).1,
    rowHas_attachRow_mono _ _ _ (rowHas_initWeatherRow wcols r0 hwc).2⟩

/-- Witness for C8: the uniform-schema conjunct applied to the
concrete one-field run, showing DEP_temp lands in the output schema. -/
theorem claim_C8_witness :
    ("DEP_" ++ "temp") ∈ (runTable (attach_weather
      [⟨["station", "valid", "temp"],
        [⟨some "JFK", some "2024-01-01 07:31:00", [("temp", some 5)]⟩]⟩]
      ⟨["FL_DATE", "ORIGIN", "DEST", "DEP_TIME", "ARR_TIME", "YEAR", "MONTH"],
       [[("FL_DATE", Cell.str "2024-01-01"), ("ORIGIN", Cell.str "jfk "),
         ("DEST", Cell.str "LAX"), ("DEP_TIME", Cell.str "0730"),
         ("ARR_TIME", Cell.str "0900"), ("YEAR", Cell.str "2024"),
         ("MONTH", Cell.str "1")]]⟩)).cols := by
  have h := claim_C8_uniform_output.1
    [⟨["station", "valid", "temp"],
      [⟨some "JFK", some "2024-01-01 07:31:00", [("temp", some 5)]⟩]⟩]
    ⟨["FL_DATE", "ORIGIN", "DEST", "DEP_TIME", "ARR_TIME", "YEAR", "MONTH"],
     [[("FL_DATE", Cell.str "2024-01-01"), ("ORIGIN", Cell.str "jfk "),
       ("DEST", Cell.str "LAX"), ("DEP_TIME", Cell.str "0730"),
       ("ARR_TIME", Cell.str "0900"), ("YEAR", Cell.str "2024"),
       ("MONTH", Cell.str "1")]]⟩
    (runTable (attach_weather
      [⟨["station", "valid", "temp"],
        [⟨some "JFK", some "2024-01-01 07:31:00", [("temp", some 5)]⟩]⟩]
      ⟨["FL_DATE", "ORIGIN", "DEST", "DEP_TIME", "ARR_TIME", "YEAR", "MONTH"],
       [[("FL_DATE", Cell.str "2024-01-01"), ("ORIGIN", Cell.str "jfk "),
         ("DEST", Cell.str "LAX"), ("DEP_TIME", Cell.str "0730"),
         ("ARR_TIME", Cell.str "0900"), ("YEAR", Cell.str "2024"),
         ("MONTH", Cell.str "1")]]⟩))
    [(("JFK", ⟨⟨2024, 1, 1⟩, 7, 30, 0⟩), [("temp", some 5)])] ["temp"]
    (by decide) (by decide)
  exact (h "temp" (by decide)).1

lemma cellAt_stage_attach_ne (wmap : WMap) (wcols : List String) (t : FTable)
    (i : Nat) {c : String}
    (h : ∀ wc ∈ wcols, c ≠ "DEP_" ++ wc ∧ c ≠ "ARR_" ++ wc) :
    cellAt (stage_attach wmap wcols t) i c = cellAt t i c := by
  unfold cellAt stage_attach
  by_cases hi : i < t.rows.length
  · rw [rows_map_getD _ _ _ hi, rowGet_attachRow_ne _ _ _ h,
      rowGet_initWeatherRow_ne _ _ h]
  · rw [rows_getD_ge _ _ (by simpa using Nat.le_of_not_lt hi),
      rows_getD_ge _ _ (Nat.le_of_not_lt hi)]

lemma cellAt_stage_rounds_ne (t : FTable) (i : Nat) {c : String}
    (h1 : c ≠ "DEP_ROUND") (h2 : c ≠ "ARR_ROUND") :
    cellAt (stage_rounds t) i c = cellAt t i c := by
  unfold cellAt stage_rounds
  by_cases hi : i < t.rows.length
  · rw [rows_map_getD _ _ _ hi, rowGet_rowSet_ne _ _ h2, rowGet_rowSet_ne _ _ h1]
  · rw [rows_getD_ge _ _ (by simpa using Nat.le_of_not_lt hi),
      rows_getD_ge _ _ (Nat.le_of_not_lt hi)]

/-- C9 counterexample: on a one-row run the output gains the helper
column FL_DATE_TS, which is neither a flight input column nor one of
the prefixed weather columns, and the ORIGIN value is written back
normalized ("JFK"), not unchanged ("jfk "). -/
theorem claim_C9_counterexample :
    isOkE (attach_weather
      [⟨["station", "valid", "temp"],
        [⟨some "JFK", some "2024-01-01 07:31:00", [("temp", some 5)]⟩]⟩]
      ⟨["FL_DATE", "ORIGIN", "DEST", "DEP_TIME", "ARR_TIME", "YEAR", "MONTH"],
       [[("FL_DATE", Cell.str "2024-01-01"), ("ORIGIN", Cell.str "jfk "),
         ("DEST", Cell.str "LAX"), ("DEP_TIME", Cell.str "0730"),
         ("ARR_TIME", Cell.str "0900"), ("YEAR", Cell.str "2024"),
         ("MONTH", Cell.str "1")]]⟩) = true
    ∧ "FL_DATE_TS" ∈ (runTable (attach_weather
      [⟨["station", "valid", "temp"],
        [⟨some "JFK", some "2024-01-01 07:31:00", [("temp", some 5)]⟩]⟩]
      ⟨["FL_DATE", "ORIGIN", "DEST", "DEP_TIME", "ARR_TIME", "YEAR", "MONTH"],
       [[("FL_DATE", Cell.str "2024-01-01"), ("ORIGIN", Cell.str "jfk "),
         ("DEST", Cell.str "LAX"), ("DEP_TIME", Cell.str "0730"),
         ("ARR_TIME", Cell.str "0900"), ("YEAR", Cell.str "2024"),
         ("MONTH", Cell.str "1")]]⟩)).cols
    ∧ "FL_DATE_TS" ∉ ["FL_DATE", "ORIGIN", "DEST", "DEP_TIME", "ARR_TIME", "YEAR", "MONTH"]
    ∧ "FL_DATE_TS" ∉ pairCols ["temp"]
    ∧ runCell (attach_weather
      [⟨["station", "valid", "temp"],
        [⟨some "JFK", some "2024-01-01 07:31:00", [("temp", some 5)]⟩]⟩]
      ⟨["FL_DATE", "ORIGIN", "DEST", "DEP_TIME", "ARR_TIME", "YEAR", "MONTH"],
       [[("FL_DATE", Cell.str "2024-01-01"), ("ORIGIN", Cell.str "jfk "),
         ("DEST", Cell.str "LAX"), ("DEP_TIME", Cell.str "0730"),
         ("ARR_TIME", Cell.str "0900"), ("YEAR", Cell.str "2024"),
         ("MONTH", Cell.str "1")]]⟩) 0 "ORIGIN" = some (Cell.str "JFK")
    ∧ some (Cell.str "JFK") ≠ some (Cell.str "jfk ") := by
  refine ⟨by decide, by decide, by decide, by decide, by decide, by decide⟩

/-- C9 amended: besides the prefixed weather columns, the run appends
the helper columns FL_DATE_TS, DEP_ROUND and ARR_ROUND to the output
(and rewrites YEAR/MONTH when either is missing, excluded here by
hypothesis); the original columns keep their values except ORIGIN and
DEST, which are written back trimmed and upper-cased. -/
theorem claim_C9_output_columns
    {wchunks : List WChunk} {fdf out : FTable} {wmap : WMap} {wcols : List String}
    (hb : build_weather_map wchunks = Except.ok (wmap, wcols))
    (hfl : "FL_DATE" ∈ fdf.cols) (ho : "ORIGIN" ∈ fdf.cols) (hd : "DEST" ∈ fdf.cols)
    (hy : "YEAR" ∈ fdf.cols) (hmo : "MONTH" ∈ fdf.cols)
    (hts : "FL_DATE_TS" ∉ fdf.cols) (hdr : "DEP_ROUND" ∉ fdf.cols)
    (har : "ARR_ROUND" ∉ fdf.cols)
    (hnd : wcols.Nodup)
    (hnew : ∀ wc ∈ wcols,
      ("DEP_" ++ wc) ∉ fdf.cols ∧ ("ARR_" ++ wc) ∉ fdf.cols ∧ wc ≠ "ROUND")
    (hout : attach_weather wchunks fdf = Except.ok out) :
    out.cols = fdf.cols ++ ["FL_DATE_TS", "DEP_ROUND", "ARR_ROUND"] ++ pairCols wcols
    ∧ (∀ (i : Nat) (c : String), c ≠ "FL_DATE_TS" → c ≠ "ORIGIN" → c ≠ "DEST" →
        c ≠ "DEP_ROUND" → c ≠ "ARR_ROUND" →
        (∀ wc ∈ wcols, c ≠ "DEP_" ++ wc ∧ c ≠ "ARR_" ++ wc) →
        cellAt out i c = cellAt fdf i c)
    ∧ (∀ i : Nat, i < fdf.rows.length →
        cellAt out i "ORIGIN" = cellNormStation (cellAt fdf i "ORIGIN")
        ∧ cellAt out i "DEST" = cellNormStation (cellAt fdf i "DEST")) := by
  have heq := attach_ok_eq hb hfl ho hd hy hmo
  have hout2 : out = stage_attach wmap wcols (stage_rounds
      (mapCol (mapCol (stage_fl_date_ts fdf) "ORIGIN"
        (fun r => cellNormStation (rowGet r "ORIGIN")))
        "DEST" (fun r => cellNormStation (rowGet r "DEST")))) := by
    have h2 := hout.symm.trans heq
    injection h2
  subst hout2
  have hc1 : (stage_fl_date_ts fdf).cols = fdf.cols ++ ["FL_DATE_TS"] :=
    appendNew_of_not_mem hts
  have hc2 : (mapCol (stage_fl_date_ts fdf) "ORIGIN"
      (fun r => cellNormStation (rowGet r "ORIGIN"))).cols = fdf.cols ++ ["FL_DATE_TS"] := by
    rw [cols_mapCol, hc1, appendNew_of_mem (List.mem_append_left _ ho)]
  have hc3 : (mapCol (mapCol (stage_fl_date_ts fdf) "ORIGIN"
      (fun r => cellNormStation (rowGet r "ORIGIN")))
      "DEST" (fun r => cellNormStation (rowGet r "DEST"))).cols
      = fdf.cols ++ ["FL_DATE_TS"] := by
    rw [cols_mapCol, hc2, appendNew_of_mem (List.mem_append_left _ hd)]
  have hdr2 : "DEP_ROUND" ∉ fdf.cols ++ ["FL_DATE_TS"] := by
    intro hmem
    rcases List.mem_append.mp hmem with hc | hc
    · exact hdr hc
    · simp at hc
  have har2 : "ARR_ROUND" ∉ (fdf.cols ++ ["FL_DATE_TS"]) ++ ["DEP_ROUND"] := by
    intro hmem
    rcases List.mem_append.mp hmem with hc | hc
    · rcases List.mem_append.mp hc with hc2 | hc2
      · exact har hc2
      · simp at hc2
    · simp at hc
  have hc4 : (stage_rounds (mapCol (mapCol (stage_fl_date_ts fdf) "ORIGIN"
      (fun r => cellNormStation (rowGet r "ORIGIN")))
      "DEST" (fun r => cellNormStation (rowGet r "DEST")))).cols
      = ((fdf.cols ++ ["FL_DATE_TS"]) ++ ["DEP_ROUND"]) ++ ["ARR_ROUND"] := by
    show appendNew (appendNew _ "DEP_ROUND") "ARR_ROUND" = _
    rw [hc3, appendNew_of_not_mem hdr2, appendNew_of_not_mem har2]
  have hnew4 : ∀ wc ∈ wcols,
      ("DEP_" ++ wc) ∉ ((fdf.cols ++ ["FL_DATE_TS"]) ++ ["DEP_ROUND"]) ++ ["ARR_ROUND"]
      ∧ ("ARR_" ++ wc) ∉ ((fdf.cols ++ ["FL_DATE_TS"]) ++ ["DEP_ROUND"]) ++ ["ARR_ROUND"] := by
    intro wc hwc
    obtain ⟨hdnew, hanew, hround⟩ := hnew wc hwc
    constructor
    · intro hmem
      rcases List.mem_append.mp hmem with hc | hc
      · rcases List.mem_append.mp hc with hc2 | hc2
        · rcases List.mem_append.mp hc2 with hc3 | hc3
          · exact hdnew hc3
          · exact dep_append_ne_ts wc (List.mem_singleton.mp hc3)
        · have : ("DEP_" ++ wc) = "DEP_" ++ "ROUND" := by
            rw [List.mem_singleton.mp hc2]
            decide
          exact hround (dep_append_inj this)
      · have : ("DEP_" ++ wc) = "ARR_" ++ "ROUND" := by
          rw [List.mem_singleton.mp hc]
          decide
        exact dep_append_ne_arr_append wc "ROUND" this
    · intro hmem
      rcases List.mem_append.mp hmem with hc | hc
      · rcases List.mem_append.mp hc with hc2 | hc2
        · rcases List.mem_append.mp hc2 with hc3 | hc3
          · exact hanew hc3
          · exact arr_append_ne_ts wc (List.mem_singleton.mp hc3)
        · have : ("ARR_" ++ wc) = "DEP_" ++ "ROUND" := by
            rw [List.mem_singleton.mp hc2]
            decide
          exact dep_append_ne_arr_append "ROUND" wc this.symm
      · have : ("ARR_" ++ wc) = "ARR_" ++ "ROUND" := by
          rw [List.mem_singleton.mp hc]
          decide
        exact hround (arr_append_inj this)
  refine ⟨?_, ?_, ?_⟩
  · show weatherColsAfter wcols _ = _
    rw [hc4, weatherColsAfter_eq wcols _ hnd hnew4]
    simp
  · intro i c hcts hco hcd hcdr hcar hcpre
    rw [cellAt_stage_attach_ne _ _ _ _ hcpre,
      cellAt_stage_rounds_ne _ _ hcdr hcar,
      cellAt_mapCol_ne _ _ _ hcd, cellAt_mapCol_ne _ _ _ hco]
    exact cellAt_mapCol_ne _ _ _ hcts
  · intro i hi
    have hi1 : i < (stage_fl_date_ts fdf).rows.length := by
      unfold stage_fl_date_ts
      rw [rows_length_mapCol]
      exact hi
    have hi2 : i < (mapCol (stage_fl_date_ts fdf) "ORIGIN"
        (fun r => cellNormStation (rowGet r "ORIGIN"))).rows.length := by
      rw [rows_length_mapCol]
      exact hi1
    constructor
    · rw [cellAt_stage_attach_ne _ _ _ _
        (fun wc _ => ⟨origin_ne_dep_append wc, origin_ne_arr_append wc⟩),
        cellAt_stage_rounds_ne _ _ (by decide) (by decide),
        cellAt_mapCol_ne _ _ _ (by decide),
        cellAt_mapCol_self _ _ _ _ hi1]
      show cellNormStation (rowGet ((stage_fl_date_ts fdf).rows.getD i []) "ORIGIN") = _
      unfold stage_fl_date_ts mapCol
      rw [show (FTable.mk (appendNew fdf.cols "FL_DATE_TS")
          (fdf.rows.map (fun r => rowSet r "FL_DATE_TS"
            (match parse_flight_date (rowGet r "FL_DATE") with
             | some t => Cell.ts t
             | none => Cell.na)))).rows = fdf.rows.map (fun r => rowSet r "FL_DATE_TS"
            (match parse_flight_date (rowGet r "FL_DATE") with
             | some t => Cell.ts t
             | none => Cell.na)) from rfl]
      rw [rows_map_getD _ _ _ hi, rowGet_rowSet_ne _ _ (by decide)]
      rfl
    · rw [cellAt_stage_attach_ne _ _ _ _
        (fun wc _ => ⟨dest_ne_dep_append wc, dest_ne_arr_append wc⟩),
        cellAt_stage_rounds_ne _ _ (by decide) (by decide),
        cellAt_mapCol_self _ _ _ _ hi2]
      show cellNormStation (rowGet ((mapCol (stage_fl_date_ts fdf) "ORIGIN"
        (fun r => cellNormStation (rowGet r "ORIGIN"))).rows.getD i []) "DEST") = _
      unfold mapCol
      rw [rows_map_getD _ _ _ hi1, rowGet_rowSet_ne _ _ (by decide)]
      show cellNormStation (rowGet ((stage_fl_date_ts fdf).rows.getD i []) "DEST") = _
      unfold stage_fl_date_ts mapCol
      rw [rows_map_getD _ _ _ hi, rowGet_rowSet_ne _ _ (by decide)]
      rfl

/-- Witness for C9 at the concrete one-field run: the output column
list is the input columns followed by the three helper columns and the
prefixed pair. -/
theorem claim_C9_witness :
    (runTable (attach_weather
      [⟨["station", "valid", "temp"],
        [⟨some "JFK", some "2024-01-01 07:31:00", [("temp", some 5)]⟩]⟩]
      ⟨["FL_DATE", "ORIGIN", "DEST", "DEP_TIME", "ARR_TIME", "YEAR", "MONTH"],
       [[("FL_DATE", Cell.str "2024-01-01"), ("ORIGIN", Cell.str "jfk "),
         ("DEST", Cell.str "LAX"), ("DEP_TIME", Cell.str "0730"),
         ("ARR_TIME", Cell.str "0900"), ("YEAR", Cell.str "2024"),
         ("MONTH", Cell.str "1")]]⟩)).cols
    = ["FL_DATE", "ORIGIN", "DEST", "DEP_TIME", "ARR_TIME", "YEAR", "MONTH"]
      ++ ["FL_DATE_TS", "DEP_ROUND", "ARR_ROUND"] ++ pairCols ["temp"] := by
  have hb : build_weather_map
      [⟨["station", "valid", "temp"],
        [⟨some "JFK", some "2024-01-01 07:31:00", [("temp", some 5)]⟩]⟩]
      = Except.ok ([(("JFK", ⟨⟨2024, 1, 1⟩, 7, 30, 0⟩), [("temp", some 5)])], ["temp"]) := by
    decide
  have hout : attach_weather
      [⟨["station", "valid", "temp"],
        [⟨some "JFK", some "2024-01-01 07:31:00", [("temp", some 5)]⟩]⟩]
      (⟨["FL_DATE", "ORIGIN", "DEST", "DEP_TIME", "ARR_TIME", "YEAR", "MONTH"],
       [[("FL_DATE", Cell.str "2024-01-01"), ("ORIGIN", Cell.str "jfk "),
         ("DEST", Cell.str "LAX"), ("DEP_TIME", Cell.str "0730"),
         ("ARR_TIME", Cell.str "0900"), ("YEAR", Cell.str "2024"),
         ("MONTH", Cell.str "1")]]⟩ : FTable)
      = Except.ok (runTable (attach_weather
      [⟨["station", "valid", "temp"],
        [⟨some "JFK", some "2024-01-01 07:31:00", [("temp", some 5)]⟩]⟩]
      ⟨["FL_DATE", "ORIGIN", "DEST", "DEP_TIME", "ARR_TIME", "YEAR", "MONTH"],
       [[("FL_DATE", Cell.str "2024-01-01"), ("ORIGIN", Cell.str "jfk "),
         ("DEST", Cell.str "LAX"), ("DEP_TIME", Cell.str "0730"),
         ("ARR_TIME", Cell.str "0900"), ("YEAR", Cell.str "2024"),
         ("MONTH", Cell.str "1")]]⟩)) := by
    decide
  exact (claim_C9_output_columns hb (by decide) (by decide) (by decide) (by decide)
    (by decide) (by decide) (by decide) (by decide) (by decide) (by decide) hout).1
